import Mathlib

/-!
Shallow embedding of the limen-trade SDK (TypeScript) for specification
verification.  The embedding covers `src/client.ts`, `src/auth.ts`, the type
declarations and the payment-client module (`src/unnamed/part_000`).

Modelling conventions:
* JavaScript values that flow through `JSON.parse` are modelled by the
  inductive `Json` (numbers as `Int`; no claim depends on float behaviour).
* A transport (`FetchLike`) is a pure function from URL and request to a
  response; a `ResponseLike` carries its status, its body parsed as JSON
  (`none` when the body is not valid JSON) and its raw body text.
* Thrown JS errors are modelled by `Except String` carrying the error message.
* The token store is threaded explicitly as `Option String` (`none` = no
  stored token); every client operation returns the store contents after the
  call together with the list of transport requests it issued, so that
  "clears the token" and "performs no network call" are statable.
* External library primitives (tweetnacl key derivation and signing,
  base58 encoding, `TextEncoder`) are parameters of the embedded functions:
  the theorems hold for every implementation of those primitives.
-/

namespace LimenSDK

/-- JSON values, as produced by `JSON.parse` / `res.json()`. -/
inductive Json : Type where
  | null : Json
  | bool (b : Bool) : Json
  | num (n : Int) : Json
  | str (s : String) : Json
  | arr (elems : List Json) : Json
  | obj (fields : List (String × Json)) : Json

/-- Field lookup in a parsed JSON object: `JSON.parse` keeps the last
occurrence of a duplicated key, so the later binding wins. -/
def lookupField (fs : List (String × Json)) (k : String) : Option Json :=
  match fs with
  | [] => none
  | (k', v) :: rest =>
    match lookupField rest k with
    | some v' => some v'
    | none => if k' = k then some v else none

/-- JS property access `j.k` on a parsed JSON value: `none` models
`undefined` (also for property access on non-objects). -/
def Json.getField (j : Json) (k : String) : Option Json :=
  match j with
  | .obj fs => lookupField fs k
  | _ => none

/-- JS truthiness of a (possibly `undefined`) JSON value:
`undefined`, `null`, `false`, `0` and `""` are falsy. -/
def jsTruthy : Option Json → Bool
  | none => false
  | some .null => false
  | some (.bool b) => b
  | some (.num n) => n != 0
  | some (.str s) => s != ""
  | some (.arr _) => true
  | some (.obj _) => true

mutual

/-- JS `ToString` coercion of a JSON value (used by `new Error(message)`
when `message` is not a string, and by `TextEncoder`). -/
def jsToString : Json → String
  | .null => "null"
  | .bool b => cond b "true" "false"
  | .num n => toString n
  | .str s => s
  | .arr elems => jsArrayToString elems
  | .obj _ => "[object Object]"

/-- `Array.prototype.toString`: elements joined with `","`,
`null` elements rendered as the empty string. -/
def jsArrayToString : List Json → String
  | [] => ""
  | [x] => jsElemToString x
  | x :: xs => jsElemToString x ++ "," ++ jsArrayToString xs

/-- One element of a JS array `join`: `null` becomes empty. -/
def jsElemToString : Json → String
  | .null => ""
  | .bool b => cond b "true" "false"
  | .num n => toString n
  | .str s => s
  | .arr elems => jsArrayToString elems
  | .obj _ => "[object Object]"

end

/-- Escape for `JSON.stringify` string rendering (quotes and backslashes;
no claim inspects control-character escapes). -/
def escapeJsonString (s : String) : String :=
  String.join (s.toList.map fun c =>
    if c = '\\' then "\\\\" else if c = '"' then "\\\"" else String.singleton c)

mutual

/-- `JSON.stringify` on a JSON value. -/
def Json.render : Json → String
  | .null => "null"
  | .bool b => cond b "true" "false"
  | .num n => toString n
  | .str s => "\"" ++ escapeJsonString s ++ "\""
  | .arr elems => "[" ++ renderElems elems ++ "]"
  | .obj fields => "\x7b" ++ renderFields fields ++ "\x7d"

/-- Comma-separated rendering of array elements. -/
def renderElems : List Json → String
  | [] => ""
  | [x] => Json.render x
  | x :: xs => Json.render x ++ "," ++ renderElems xs

/-- Comma-separated rendering of object fields. -/
def renderFields : List (String × Json) → String
  | [] => ""
  | [(k, v)] => "\"" ++ escapeJsonString k ++ "\":" ++ Json.render v
  | (k, v) :: fs => "\"" ++ escapeJsonString k ++ "\":" ++ Json.render v ++ "," ++ renderFields fs

end

/-- The request shape handed to a transport (`types.ts` `RequestLike`). -/
structure RequestLike where
  method : Option String
  headers : List (String × String)
  body : Option String
deriving DecidableEq, Repr

/-- The response shape a transport yields (`types.ts` `ResponseLike`):
`jsonBody = none` models a body that fails to parse as JSON. -/
structure ResponseLike where
  status : Nat
  jsonBody : Option Json
  text : String

/-- A transport (`types.ts` `FetchLike`), modelled as a pure function. -/
abbrev FetchLike := String → RequestLike → ResponseLike

/-- Outcome of a client operation: the returned value or thrown error
message, the token-store contents after the call, and the transport
requests issued (URL and request, in order). -/
structure CallResult (α : Type) where
  result : Except String α
  tokenAfter : Option String
  calls : List (String × RequestLike)

/-- Modelled from the spec: the token store (`src/token-store.ts` is not in
the sources; §4.1 specifies `get() -> token or absent`). Reading the store
returns its current contents. -/
def getToken (tok : Option String) : Option String := tok

/-- Modelled from the spec: storing a token (token store `set(token)`). -/
def setToken (_tok : Option String) (t : String) : Option String := some t

/-- Modelled from the spec: clearing the token store (`clear()`), after
which a read returns absent. -/
def clearToken (_tok : Option String) : Option String := none

/-- `client.ts` `parseJson`: yields the parsed body, or throws
`Failed to parse JSON response: <text>` when parsing fails. -/
def parseJson (res : ResponseLike) : Except String Json :=
  match res.jsonBody with
  | some j => .ok j
  | none => .error ("Failed to parse JSON response: " ++ res.text)

/-- `auth.ts` `fetchJson` (same body as `client.ts` `parseJson`). -/
def fetchJson (res : ResponseLike) : Except String Json :=
  match res.jsonBody with
  | some j => .ok j
  | none => .error ("Failed to parse JSON response: " ++ res.text)

def noJwtMessage : String :=
  "No JWT is stored. Authenticate before making API requests."

def unauthorizedMessage : String :=
  "Unauthorized: JWT expired or invalid. Re-authenticate and try again."

/-- `client.ts` `requireToken`: `if (!token) throw`; JS truthiness makes
both `null` and the empty string fail. -/
def requireToken (tok : Option String) : Except String String :=
  match tok with
  | none => .error noJwtMessage
  | some t => if t = "" then .error noJwtMessage else .ok t

/-- The optional `init` argument of `authorizedFetch`. -/
structure InitArg where
  method : Option String := none
  body : Option String := none
deriving DecidableEq, Repr

/-- The conditional `Content-Type` header: attached only when a body is
present (`client.ts` line 112). -/
def contentTypeHeaders (body : Option String) : List (String × String) :=
  match body with
  | some _ => [("Content-Type", "application/json")]
  | none => []

/-- `client.ts` `authorizedFetch`: reads the stored token (failing without
a network call when it is absent), issues the request with the method
defaulting to `POST`, clears the token and throws on status 401, throws
with the body text on other statuses ≥ 400, and returns the response
otherwise. -/
def authorizedFetch (baseUrl : String) (fetchFn : FetchLike) (tok : Option String)
    (path : String) (init : InitArg) : CallResult ResponseLike :=
  match requireToken (getToken tok) with
  | .error e => ⟨.error e, tok, []⟩
  | .ok token =>
    let headers := ("Authorization", "Bearer " ++ token) :: contentTypeHeaders init.body
    let url := baseUrl ++ path
    let req : RequestLike := ⟨some (init.method.getD "POST"), headers, init.body⟩
    let res := fetchFn url req
    if res.status = 401 then
      ⟨.error unauthorizedMessage, clearToken tok, [(url, req)]⟩
    else if 400 ≤ res.status then
      ⟨.error ("Request failed (" ++ toString res.status ++ "): " ++ res.text), tok, [(url, req)]⟩
    else
      ⟨.ok res, tok, [(url, req)]⟩

/-- `types.ts` `HistoryQueryOptions.limit`: `number | "all"`. -/
inductive HistoryLimit where
  | num (n : Int)
  | allStr
deriving DecidableEq, Repr

/-- `types.ts` `HistoryQueryOptions` (all fields optional). -/
structure HistoryQueryOptions where
  page : Option Int := none
  limit : Option HistoryLimit := none
  all : Option Bool := none
deriving DecidableEq, Repr

/-- Query-parameter construction of `getHistory` (`client.ts` lines
135-145): truthy `all` sets `all=true` and suppresses `limit`; otherwise a
truthy `limit` is set; a truthy `page` is appended. -/
def historyParams (options : HistoryQueryOptions) : List (String × String) :=
  let base :=
    if options.all.getD false then [("all", "true")]
    else
      match options.limit with
      | some (.num n) => if n != 0 then [("limit", toString n)] else []
      | some .allStr => [("limit", "all")]
      | none => []
  match options.page with
  | some p => if p != 0 then base ++ [("page", toString p)] else base
  | none => base

/-- `URLSearchParams.toString` for the parameters built above: `k=v`
pairs joined with `&` (every key and value generated by `historyParams`
is URL-safe, so percent-encoding is the identity on them). -/
def serializeParams : List (String × String) → String
  | [] => ""
  | [kv] => kv.1 ++ "=" ++ kv.2
  | kv :: rest => kv.1 ++ "=" ++ kv.2 ++ "&" ++ serializeParams rest

/-- `types.ts` `HistoryListResponse`, with `pagination : none` modelling
the explicit `null`. -/
structure HistoryListResponse where
  history : List Json
  pagination : Option Json

/-- Result normalization of `getHistory` (`client.ts` lines 151-154):
a non-array `history` becomes `[]`, a nullish `pagination` becomes `null`. -/
def normalizeHistoryData (data : Json) : HistoryListResponse :=
  { history :=
      match data.getField "history" with
      | some (.arr xs) => xs
      | _ => []
    pagination :=
      match data.getField "pagination" with
      | some .null => none
      | some v => some v
      | none => none }

/-- The tail of `getHistory` (`client.ts` lines 149-154): propagate an
error of the authorized call, otherwise parse the body and normalize it. -/
def decodeHistoryResult (r : CallResult ResponseLike) : CallResult HistoryListResponse :=
  match r.result with
  | .error e => ⟨.error e, r.tokenAfter, r.calls⟩
  | .ok res =>
    match parseJson res with
    | .error e => ⟨.error e, r.tokenAfter, r.calls⟩
    | .ok data => ⟨.ok (normalizeHistoryData data), r.tokenAfter, r.calls⟩

/-- `client.ts` `getHistory`. -/
def getHistory (baseUrl : String) (fetchFn : FetchLike) (tok : Option String)
    (options : HistoryQueryOptions) : CallResult HistoryListResponse :=
  let query := serializeParams (historyParams options)
  let path := "/api/history" ++ (if query = "" then "" else "?" ++ query)
  decodeHistoryResult (authorizedFetch baseUrl fetchFn tok path {})

/-- `types.ts` `SignalRequestOptions`. -/
structure SignalRequestOptions where
  ticker : String
  timeframe : Option String := none
  metadata : Option Json := none

/-- The object literal of the `requestSignal` body (`client.ts` lines
165-169), after applying the `?? "1d"` default. -/
structure SignalBody where
  ticker : String
  timeframe : String
  metadata : Option Json

/-- Body construction of `requestSignal`: `timeframe` defaults to `"1d"`. -/
def buildSignalBody (options : SignalRequestOptions) : SignalBody :=
  { ticker := options.ticker
    timeframe := options.timeframe.getD "1d"
    metadata := options.metadata }

/-- The body as a JSON object; `JSON.stringify` drops an `undefined`
`metadata` field. -/
def SignalBody.toJson (b : SignalBody) : Json :=
  .obj ([("ticker", .str b.ticker), ("timeframe", .str b.timeframe)] ++
    match b.metadata with
    | some m => [("metadata", m)]
    | none => [])

def noPaymentClientMessage : String :=
  "No payment client configured. Use setPaymentClient() with an x402-enabled fetch client."

def paymentRequiredMessage : String :=
  "Payment required. The provided payment client did not complete the x402 flow."

/-- `client.ts` `requestSignal`: requires a payment client and a stored
token, POSTs the body through the payment client's transport, clears the
token and throws on 401, distinguishes 402, throws on other ≥ 400, and
parses the response body otherwise. -/
def requestSignal (baseUrl : String) (paymentFetch : Option FetchLike)
    (tok : Option String) (options : SignalRequestOptions) : CallResult Json :=
  match paymentFetch with
  | none => ⟨.error noPaymentClientMessage, tok, []⟩
  | some pf =>
    match requireToken (getToken tok) with
    | .error e => ⟨.error e, tok, []⟩
    | .ok token =>
      let body := (buildSignalBody options).toJson.render
      let url := baseUrl ++ "/api/analyze/signal"
      let req : RequestLike := ⟨some "POST",
        [("Content-Type", "application/json"), ("Authorization", "Bearer " ++ token)],
        some body⟩
      let res := pf url req
      if res.status = 401 then
        ⟨.error unauthorizedMessage, clearToken tok, [(url, req)]⟩
      else if res.status = 402 then
        ⟨.error paymentRequiredMessage, tok, [(url, req)]⟩
      else if 400 ≤ res.status then
        ⟨.error ("Signal request failed (" ++ toString res.status ++ "): " ++ res.text), tok,
          [(url, req)]⟩
      else
        match parseJson res with
        | .error e => ⟨.error e, tok, [(url, req)]⟩
        | .ok data => ⟨.ok data, tok, [(url, req)]⟩

/-! ### `src/auth.ts` -/

/-- The base58 alphabet (character class `[1-9A-HJ-NP-Za-km-z]`). -/
def base58Alphabet : List Char :=
  "123456789ABCDEFGHJKLMNPQRSTUVWXYZabcdefghijkmnopqrstuvwxyz".toList

/-- Digit value of a base58 character, `none` for characters outside the
alphabet. -/
def base58Index (c : Char) : Option Nat :=
  base58Alphabet.findIdx? (· = c)

/-- Big-endian base-256 digits of a natural number (empty for zero). -/
def natToBytesBE : Nat → List Nat
  | 0 => []
  | n + 1 => natToBytesBE ((n + 1) / 256) ++ [(n + 1) % 256]
decreasing_by exact Nat.div_lt_self (Nat.succ_pos n) (by norm_num)

/-- `bs58.decode`: fails on any non-alphabet character; otherwise the
base58 number converted to bytes, with one leading zero byte per leading
`'1'`. -/
def bs58Decode (s : String) : Option (List Nat) :=
  let chars := s.toList
  if chars.all fun c => (base58Index c).isSome then
    let n := chars.foldl (fun acc c => acc * 58 + (base58Index c).getD 0) 0
    let leading := (chars.takeWhile (· = '1')).length
    some (List.replicate leading 0 ++ natToBytesBE n)
  else none

/-- `ToUint8` as applied by `Uint8Array.from` to a JS number. -/
def jsToUint8 (n : Int) : Nat :=
  (n % 256).toNat

/-- A tweetnacl keypair (`nacl.sign.keyPair.*` result shape). -/
structure KeyPairN where
  publicKey : List Nat
  secretKey : List Nat

/-- `types.ts` `SecretKeyInput`: `string | Uint8Array | number[] | Keypair`.
A `Keypair` is modelled by the data `normalizeSecretKey` reads from it: its
base58 public key and its secret-key bytes. -/
inductive SecretKeyInput where
  | keypair (publicKeyBase58 : String) (secretKey : List Nat)
  | str (s : String)
  | bytes (b : List Nat)
  | nums (ns : List Int)

/-- The `{wallet, secretKey}` result of `normalizeSecretKey`. -/
structure NormalizedKey where
  wallet : String
  secretKey : List Nat

def secretKeyLengthMessage : String :=
  "Secret key must be 32-byte seed or 64-byte secret key."

/-- The length dispatch of `normalizeSecretKey` (`auth.ts` lines 111-121):
32 bytes are a seed, 64 bytes a full secret key, anything else throws.
`fromSeed` and `fromSecretKey` are the external tweetnacl primitives,
`enc` is `bs58.encode`. -/
def normalizeKeyBytes (fromSeed fromSecretKey : List Nat → KeyPairN)
    (enc : List Nat → String) (keyBytes : List Nat) : Except String NormalizedKey :=
  if keyBytes.length = 32 then
    let pair := fromSeed keyBytes
    .ok ⟨enc pair.publicKey, pair.secretKey⟩
  else if keyBytes.length = 64 then
    let pair := fromSecretKey keyBytes
    .ok ⟨enc pair.publicKey, pair.secretKey⟩
  else
    .error secretKeyLengthMessage

/-- `auth.ts` `normalizeSecretKey`: a `Keypair` is used directly; a string
is base58-decoded (`bs58.decode` throws on non-alphabet characters); byte
and number inputs go through `Uint8Array.from`. -/
def normalizeSecretKey (fromSeed fromSecretKey : List Nat → KeyPairN)
    (enc : List Nat → String) (input : SecretKeyInput) : Except String NormalizedKey :=
  match input with
  | .keypair pk sk => .ok ⟨pk, sk⟩
  | .str s =>
    match bs58Decode s with
    | none => .error "Non-base58 character"
    | some b => normalizeKeyBytes fromSeed fromSecretKey enc b
  | .bytes b => normalizeKeyBytes fromSeed fromSecretKey enc b
  | .nums ns => normalizeKeyBytes fromSeed fromSecretKey enc (ns.map jsToUint8)

/-- The bytes `normalizeSecretKey` length-checks for a given input
(`none` for the `Keypair` fast path and for base58 decode failures). -/
def normalizedKeyBytes : SecretKeyInput → Option (List Nat)
  | .keypair _ _ => none
  | .str s => bs58Decode s
  | .bytes b => some b
  | .nums ns => some (ns.map jsToUint8)

/-- The two fields `auth.ts` destructures from the challenge body
(`undefined` when absent, as the body is an unchecked cast). -/
structure ChallengeResponse where
  challenge : Option Json
  challengeToken : Option Json

/-- `auth.ts` `fetchChallenge`: GET `/api/auth/challenge`, throwing with
the body text on status ≥ 400, then parsing the body as JSON. -/
def fetchChallenge (fetchFn : FetchLike) (baseUrl : String) :
    Except String ChallengeResponse × List (String × RequestLike) :=
  let url := baseUrl ++ "/api/auth/challenge"
  let req : RequestLike := ⟨some "GET", [], none⟩
  let res := fetchFn url req
  if 400 ≤ res.status then
    (.error ("Challenge fetch failed (" ++ toString res.status ++ "): " ++ res.text), [(url, req)])
  else
    match fetchJson res with
    | .error e => (.error e, [(url, req)])
    | .ok j => (.ok ⟨j.getField "challenge", j.getField "challengeToken"⟩, [(url, req)])

/-- The exchange request body `{wallet, signature, challengeToken}`;
`JSON.stringify` drops the key when `challengeToken` is `undefined`. -/
def exchangeBody (wallet signature : String) (challengeToken : Option Json) : Json :=
  .obj ([("wallet", .str wallet), ("signature", .str signature)] ++
    match challengeToken with
    | some ct => [("challengeToken", ct)]
    | none => [])

/-- The error message of a failed exchange (`auth.ts` line 59):
the body's `error` field when truthy (coerced to a string by
`new Error`), otherwise `Auth failed (<status>)`. -/
def authFailureMessage (status : Nat) (body : Json) : String :=
  match body.getField "error" with
  | some e => if jsTruthy (some e) then jsToString e else "Auth failed (" ++ toString status ++ ")"
  | none => "Auth failed (" ++ toString status ++ ")"

/-- `auth.ts` `exchangeSignatureForToken`: POSTs the signature, parses the
body as JSON (a parse failure throws before any status check), and throws
`authFailureMessage` when the status is ≥ 400 or the body's `token` field
is falsy; otherwise returns the token field's value. -/
def exchangeSignatureForToken (fetchFn : FetchLike) (baseUrl wallet signature : String)
    (challengeToken : Option Json) : Except String Json × List (String × RequestLike) :=
  let url := baseUrl ++ "/api/auth"
  let req : RequestLike := ⟨some "POST", [("Content-Type", "application/json")],
    some (exchangeBody wallet signature challengeToken).render⟩
  let res := fetchFn url req
  match fetchJson res with
  | .error e => (.error e, [(url, req)])
  | .ok body =>
    if 400 ≤ res.status ∨ jsTruthy (body.getField "token") = false then
      (.error (authFailureMessage res.status body), [(url, req)])
    else
      match body.getField "token" with
      | some t => (.ok t, [(url, req)])
      | none => (.error (authFailureMessage res.status body), [(url, req)])

/-- `types.ts` `WalletMessageSigner`, with `signMessage` pure. -/
structure WalletMessageSigner where
  address : String
  signMessage : List Nat → List Nat

/-- The `{token, wallet}` result of a successful authentication. -/
structure AuthSuccess where
  token : Json
  wallet : String

/-- `auth.ts` `authenticateWithWallet`: challenge fetch, wallet-delegated
signing of the UTF-8 challenge bytes (`encodeUtf8` models `TextEncoder`
with JS string coercion, `enc` models `bs58.encode`), then the shared
exchange. -/
def authenticateWithWallet (encodeUtf8 : Option Json → List Nat) (enc : List Nat → String)
    (fetchFn : FetchLike) (baseUrl : String) (wallet : WalletMessageSigner) :
    Except String AuthSuccess × List (String × RequestLike) :=
  let chr := fetchChallenge fetchFn baseUrl
  match chr.1 with
  | .error e => (.error e, chr.2)
  | .ok ch =>
    let signature := enc (wallet.signMessage (encodeUtf8 ch.challenge))
    let ex := exchangeSignatureForToken fetchFn baseUrl wallet.address signature ch.challengeToken
    (ex.1.map fun t => ⟨t, wallet.address⟩, chr.2 ++ ex.2)

/-- `auth.ts` `authenticateWithSecretKey`: secret-key normalization first
(any normalization failure propagates before any network call), then the
challenge fetch, local detached signing (`signDetached` models
`nacl.sign.detached`), and the shared exchange. -/
def authenticateWithSecretKey (fromSeed fromSecretKey : List Nat → KeyPairN)
    (enc : List Nat → String) (encodeUtf8 : Option Json → List Nat)
    (signDetached : List Nat → List Nat → List Nat)
    (fetchFn : FetchLike) (baseUrl : String) (input : SecretKeyInput) :
    Except String AuthSuccess × List (String × RequestLike) :=
  match normalizeSecretKey fromSeed fromSecretKey enc input with
  | .error e => (.error e, [])
  | .ok norm =>
    let chr := fetchChallenge fetchFn baseUrl
    match chr.1 with
    | .error e => (.error e, chr.2)
    | .ok ch =>
      let signature := enc (signDetached (encodeUtf8 ch.challenge) norm.secretKey)
      let ex := exchangeSignatureForToken fetchFn baseUrl norm.wallet signature ch.challengeToken
      (ex.1.map fun t => ⟨t, norm.wallet⟩, chr.2 ++ ex.2)

/-! ### The keypair payment client (`src/unnamed/part_000`, lines 183-197) -/

/-- Outcome of one invocation of a payment transport: a response, or a
thrown error carrying its message. -/
inductive FetchOutcome where
  | success (res : ResponseLike)
  | failure (message : String)

/-- Membership in the regex character class `[1-9A-HJ-NP-Za-km-z]`. -/
def isBase58Char (c : Char) : Bool :=
  (base58Index c).isSome

/-- The literal part of the remediation regex. -/
def ataMarker : List Char :=
  "Associated Token Account for ".toList

/-- Match of `/Associated Token Account for ([1-9A-HJ-NP-Za-km-z]{32,44})/`
anchored at the start of `s`: the greedy capture takes up to 44 alphabet
characters and needs at least 32. -/
def matchMintAt (s : List Char) : Option (List Char) :=
  if ataMarker.isPrefixOf s then
    let run := ((s.drop ataMarker.length).takeWhile isBase58Char).take 44
    if 32 ≤ run.length then some run else none
  else none

/-- Leftmost regex search: try every start position. -/
def findMintMatch : List Char → Option (List Char)
  | [] => none
  | c :: cs =>
    match matchMintAt (c :: cs) with
    | some r => some r
    | none => findMintMatch cs

/-- `message.match(/Associated Token Account for (...)/)`, returning the
captured mint address. -/
def mintMatch (message : String) : Option String :=
  (findMintMatch message.toList).map fun cs => String.mk cs

/-- Trace of one call through the keypair payment adapter's `fetch`:
the final outcome, the number of invocations of the wrapped
`baseClient.fetch`, and the mints passed to
`ensureAssociatedTokenAccount`, in order. -/
structure AdapterCall where
  outcome : FetchOutcome
  baseCalls : Nat
  remediations : List String

/-- The `fetch` wrapper returned by `createKeypairPaymentClient`
(`part_000` lines 184-196), for one call with fixed arguments:
`base i` is the outcome of the i-th invocation of `baseClient.fetch` on
those arguments, and `remediate` is `ensureAssociatedTokenAccount`
(`.error` modelling a throw during remediation). A first failure whose
message matches the mint regex triggers one remediation and one retry;
every other failure, and any failure of the retry itself, propagates. -/
def adapterFetch (base : Nat → FetchOutcome) (remediate : String → Except String Unit) :
    AdapterCall :=
  match base 0 with
  | .success res => ⟨.success res, 1, []⟩
  | .failure msg =>
    match mintMatch msg with
    | none => ⟨.failure msg, 1, []⟩
    | some mint =>
      match remediate mint with
      | .error e => ⟨.failure e, 1, [mint]⟩
      | .ok _ => ⟨base 1, 2, [mint]⟩

/-! ### Concrete fixtures used by witnesses and counterexamples -/

/-- A success response with an empty JSON object body. -/
def okResponse : ResponseLike := ⟨200, some (.obj []), ""⟩

/-- A transport that always yields `okResponse`. -/
def okFetch : FetchLike := fun _ _ => okResponse

/-- A 401 response. -/
def res401 : ResponseLike := ⟨401, some (.obj []), ""⟩

/-- A transport that always yields status 401. -/
def fetch401 : FetchLike := fun _ _ => res401

/-! ### Theorems -/

/-- An error of the authorized call passes through the history decoding
unchanged. -/
theorem decodeHistoryResult_error (e : String) (tok : Option String)
    (calls : List (String × RequestLike)) :
    decodeHistoryResult ⟨.error e, tok, calls⟩ = ⟨.error e, tok, calls⟩ := rfl

/-- C1: for every authorized call (`getHistory` or `requestSignal`) made
while a token is stored, if the transport returns status 401 the call
fails with the auth-expired error, the token store is cleared, and a
subsequent read of the token store returns absent. -/
theorem authorized_call_401_clears_token (baseUrl t : String) (fetchFn pf : FetchLike)
    (options : HistoryQueryOptions) (sopts : SignalRequestOptions)
    (ht : t ≠ "")
    (h401 : ∀ url req, (fetchFn url req).status = 401)
    (h401' : ∀ url req, (pf url req).status = 401) :
    (getHistory baseUrl fetchFn (some t) options).result = .error unauthorizedMessage ∧
    getToken (getHistory baseUrl fetchFn (some t) options).tokenAfter = none ∧
    (requestSignal baseUrl (some pf) (some t) sopts).result = .error unauthorizedMessage ∧
    getToken (requestSignal baseUrl (some pf) (some t) sopts).tokenAfter = none := by
  unfold getHistory requestSignal authorizedFetch requireToken getToken clearToken
  simp [ht, h401, h401', decodeHistoryResult_error]

/-- Witness for C1 at concrete inputs. -/
theorem authorized_call_401_clears_token_witness :
    (getHistory "https://api.limen.trade" fetch401 (some "tok") {}).result
        = .error unauthorizedMessage ∧
    getToken (getHistory "https://api.limen.trade" fetch401 (some "tok") {}).tokenAfter = none ∧
    (requestSignal "https://api.limen.trade" (some fetch401) (some "tok")
        ⟨"SOL", none, none⟩).result = .error unauthorizedMessage ∧
    getToken (requestSignal "https://api.limen.trade" (some fetch401) (some "tok")
        ⟨"SOL", none, none⟩).tokenAfter = none :=
  authorized_call_401_clears_token "https://api.limen.trade" "tok" fetch401 fetch401 {}
    ⟨"SOL", none, none⟩ (by decide) (fun _ _ => rfl) (fun _ _ => rfl)

/-- C8: an authorized call while the token store holds no token fails with
the unauthenticated error and issues no transport request. -/
theorem unauthenticated_call_no_network (baseUrl : String) (fetchFn pf : FetchLike)
    (options : HistoryQueryOptions) (sopts : SignalRequestOptions) :
    (getHistory baseUrl fetchFn none options).result = .error noJwtMessage ∧
    (getHistory baseUrl fetchFn none options).calls = [] ∧
    (requestSignal baseUrl (some pf) none sopts).result = .error noJwtMessage ∧
    (requestSignal baseUrl (some pf) none sopts).calls = [] := by
  unfold getHistory requestSignal authorizedFetch requireToken getToken
  simp [decodeHistoryResult_error]

/-- C9: an empty-string stored token behaves exactly like an absent one:
the unauthenticated error, and no transport request. -/
theorem empty_token_behaves_as_absent (baseUrl : String) (fetchFn pf : FetchLike)
    (options : HistoryQueryOptions) (sopts : SignalRequestOptions) :
    (getHistory baseUrl fetchFn (some "") options).result = .error noJwtMessage ∧
    (getHistory baseUrl fetchFn (some "") options).calls = [] ∧
    (requestSignal baseUrl (some pf) (some "") sopts).result = .error noJwtMessage ∧
    (requestSignal baseUrl (some pf) (some "") sopts).calls = [] := by
  unfold getHistory requestSignal authorizedFetch requireToken getToken
  simp [decodeHistoryResult_error]

/-- Every request issued by `authorizedFetch` carries the method of its
`init` argument, defaulted to `POST`. -/
theorem authorizedFetch_method (baseUrl path : String) (fetchFn : FetchLike)
    (tok : Option String) (init : InitArg) :
    ∀ c ∈ (authorizedFetch baseUrl fetchFn tok path init).calls,
      c.2.method = some (init.method.getD "POST") := by
  unfold authorizedFetch
  cases requireToken (getToken tok) <;> simp
  split
  · simp
  · split <;> simp

/-- Decoding the history response leaves the issued-request list of the
authorized call unchanged. -/
theorem decodeHistoryResult_calls (r : CallResult ResponseLike) :
    (decodeHistoryResult r).calls = r.calls := by
  unfold decodeHistoryResult
  split
  · rfl
  · split <;> rfl

/-- C2 counterexample: a concrete `getHistory` call issues its request
with method `POST`, not `GET` (the claim states `GET`). -/
theorem getHistory_method_cex :
    ¬ ∀ c ∈ (getHistory "https://api.limen.trade" okFetch (some "tok") {}).calls,
        c.2.method = some "GET" := by
  decide

/-- C2 amended: every request a `getHistory` call issues goes to the
history path with the method `POST` (the `authorizedFetch` default, since
`getHistory` does not override the method). -/
theorem getHistory_method_post (baseUrl : String) (fetchFn : FetchLike) (tok : Option String)
    (options : HistoryQueryOptions) :
    ∀ c ∈ (getHistory baseUrl fetchFn tok options).calls, c.2.method = some "POST" := by
  intro c hc
  simp only [getHistory, decodeHistoryResult_calls] at hc
  simpa using authorizedFetch_method _ _ _ _ _ c hc

/-- The request `getHistory` issues in the concrete C2 scenario. -/
def histReq : RequestLike := ⟨some "POST", [("Authorization", "Bearer tok")], none⟩

/-- Witness for the amended C2 at concrete inputs. -/
theorem getHistory_method_post_witness :
    ("https://api.limen.trade/api/history", histReq)
        ∈ (getHistory "https://api.limen.trade" okFetch (some "tok") {}).calls ∧
    histReq.method = some "POST" :=
  ⟨by decide, getHistory_method_post "https://api.limen.trade" okFetch (some "tok") {}
    ("https://api.limen.trade/api/history", histReq) (by decide)⟩

/-- C5: with a truthy `all` option the constructed query carries
`all=true`, carries no `limit` parameter even when `limit` is supplied,
and the serialized query string starts with `all=true`. -/
theorem getHistory_all_suppresses_limit (options : HistoryQueryOptions)
    (hall : options.all = some true) :
    ("all", "true") ∈ historyParams options ∧
    (∀ v, ("limit", v) ∉ historyParams options) ∧
    ∃ rest, serializeParams (historyParams options) = "all=true" ++ rest := by
  rcases hpage : options.page with _ | p
  · refine ⟨?_, ?_, ⟨"", ?_⟩⟩ <;> simp [historyParams, hall, hpage]
    decide
  · by_cases hz : p = 0
    · refine ⟨?_, ?_, ⟨"", ?_⟩⟩ <;> simp [historyParams, hall, hpage, hz]
      decide
    · refine ⟨?_, ?_, ⟨"&page=" ++ toString p, ?_⟩⟩ <;>
        simp [historyParams, hall, hpage, hz, serializeParams]
      simp only [← String.append_assoc]
      congr 1

/-- Witness for C5 at the spec's own example `{all: true, limit: 20}`. -/
theorem getHistory_all_suppresses_limit_witness :
    ("all", "true") ∈ historyParams { all := some true, limit := some (.num 20) } ∧
    (∀ v, ("limit", v) ∉ historyParams { all := some true, limit := some (.num 20) }) ∧
    ∃ rest, serializeParams (historyParams { all := some true, limit := some (.num 20) })
      = "all=true" ++ rest :=
  getHistory_all_suppresses_limit { all := some true, limit := some (.num 20) } rfl

/-- C10: a `requestSignal` call whose options omit `timeframe` sends a
body whose `timeframe` field is the string `"1d"`. -/
theorem requestSignal_default_timeframe (baseUrl t tk : String) (pf : FetchLike)
    (m : Option Json) (ht : t ≠ "") :
    (buildSignalBody ⟨tk, none, m⟩).timeframe = "1d" ∧
    ((requestSignal baseUrl (some pf) (some t) ⟨tk, none, m⟩).calls.map fun c => c.2.body) =
      [some (SignalBody.toJson (buildSignalBody ⟨tk, none, m⟩)).render] := by
  constructor
  · rfl
  · unfold requestSignal requireToken getToken
    simp only [ht, if_false, reduceIte]
    split
    · simp
    · split
      · simp
      · split
        · simp
        · split <;> simp

/-- Witness for C10 at concrete inputs. -/
theorem requestSignal_default_timeframe_witness :
    (buildSignalBody ⟨"SOL", none, none⟩).timeframe = "1d" ∧
    ((requestSignal "https://api.limen.trade" (some okFetch) (some "tok")
        ⟨"SOL", none, none⟩).calls.map fun c => c.2.body) =
      [some (SignalBody.toJson (buildSignalBody ⟨"SOL", none, none⟩)).render] :=
  requestSignal_default_timeframe "https://api.limen.trade" "tok" "SOL" okFetch none (by decide)

/-- C6: when the history response body is a JSON object without a usable
`history` array and without a `pagination` field, the result is exactly
`{history: [], pagination: null}` (both fields concrete by the result
type: `history` is a list and `pagination` an explicit `Option`). -/
theorem getHistory_empty_body_defaults (baseUrl t : String) (fetchFn : FetchLike)
    (options : HistoryQueryOptions) (fields : List (String × Json))
    (ht : t ≠ "")
    (hstatus : ∀ url req, (fetchFn url req).status < 400)
    (hbody : ∀ url req, (fetchFn url req).jsonBody = some (.obj fields))
    (hhist : ∀ xs, lookupField fields "history" ≠ some (.arr xs))
    (hpag : lookupField fields "pagination" = none) :
    normalizeHistoryData (.obj fields) = ⟨[], none⟩ ∧
    (getHistory baseUrl fetchFn (some t) options).result = .ok ⟨[], none⟩ := by
  have hnorm : normalizeHistoryData (.obj fields) = ⟨[], none⟩ := by
    simp only [normalizeHistoryData, Json.getField, hpag]
  have hs401 : ∀ url req, ¬((fetchFn url req).status = 401) := fun url req => by
    have := hstatus url req; omega
  have hsge : ∀ url req, ¬(400 ≤ (fetchFn url req).status) := fun url req => by
    have := hstatus url req; omega
  refine ⟨hnorm, ?_⟩
  unfold getHistory decodeHistoryResult authorizedFetch requireToken getToken parseJson
  simp [ht, hs401, hsge, hbody, hnorm]

/-- Witness for C6: an empty-object response body. -/
theorem getHistory_empty_body_defaults_witness :
    normalizeHistoryData (.obj []) = ⟨[], none⟩ ∧
    (getHistory "https://api.limen.trade" okFetch (some "tok") {}).result = .ok ⟨[], none⟩ :=
  getHistory_empty_body_defaults "https://api.limen.trade" "tok" okFetch {} []
    (by decide) (fun _ _ => show (200 : Nat) < 400 by decide) (fun _ _ => rfl)
    (fun xs h => nomatch h) rfl

/-- C4: any secret-key input whose normalized byte length is neither 32
nor 64 makes `normalizeSecretKey` (and hence `authenticateWithSecretKey`)
fail with the length-mismatch error before any transport request, for
every choice of the external crypto primitives. -/
theorem secret_key_bad_length (fromSeed fromSecretKey : List Nat → KeyPairN)
    (enc : List Nat → String) (encodeUtf8 : Option Json → List Nat)
    (signDetached : List Nat → List Nat → List Nat) (fetchFn : FetchLike)
    (baseUrl : String) (input : SecretKeyInput) (bytes : List Nat)
    (hb : normalizedKeyBytes input = some bytes)
    (h32 : bytes.length ≠ 32) (h64 : bytes.length ≠ 64) :
    normalizeSecretKey fromSeed fromSecretKey enc input = .error secretKeyLengthMessage ∧
    (authenticateWithSecretKey fromSeed fromSecretKey enc encodeUtf8 signDetached
        fetchFn baseUrl input).1 = .error secretKeyLengthMessage ∧
    (authenticateWithSecretKey fromSeed fromSecretKey enc encodeUtf8 signDetached
        fetchFn baseUrl input).2 = [] := by
  have hkb : ∀ b : List Nat, b.length ≠ 32 → b.length ≠ 64 →
      normalizeKeyBytes fromSeed fromSecretKey enc b = .error secretKeyLengthMessage := by
    intro b hb32 hb64
    unfold normalizeKeyBytes
    simp [hb32, hb64]
  have hnorm : normalizeSecretKey fromSeed fromSecretKey enc input
      = .error secretKeyLengthMessage := by
    cases input with
    | keypair pk sk => simp [normalizedKeyBytes] at hb
    | str s =>
      simp only [normalizedKeyBytes] at hb
      simp only [normalizeSecretKey]
      rw [hb]
      exact hkb bytes h32 h64
    | bytes b =>
      simp only [normalizedKeyBytes, Option.some.injEq] at hb
      subst hb
      exact hkb _ h32 h64
    | nums ns =>
      simp only [normalizedKeyBytes, Option.some.injEq] at hb
      simp only [normalizeSecretKey]
      rw [hb]
      exact hkb _ h32 h64
  refine ⟨hnorm, ?_, ?_⟩ <;> · unfold authenticateWithSecretKey; rw [hnorm]

/-- Witness for C4: a 3-byte input. -/
theorem secret_key_bad_length_witness :
    normalizeSecretKey (fun _ => ⟨[], []⟩) (fun _ => ⟨[], []⟩) (fun _ => "")
        (.bytes [1, 2, 3]) = .error secretKeyLengthMessage ∧
    (authenticateWithSecretKey (fun _ => ⟨[], []⟩) (fun _ => ⟨[], []⟩) (fun _ => "")
        (fun _ => []) (fun _ _ => []) okFetch "https://api.limen.trade"
        (.bytes [1, 2, 3])).1 = .error secretKeyLengthMessage ∧
    (authenticateWithSecretKey (fun _ => ⟨[], []⟩) (fun _ => ⟨[], []⟩) (fun _ => "")
        (fun _ => []) (fun _ _ => []) okFetch "https://api.limen.trade"
        (.bytes [1, 2, 3])).2 = [] :=
  secret_key_bad_length (fun _ => ⟨[], []⟩) (fun _ => ⟨[], []⟩) (fun _ => "")
    (fun _ => []) (fun _ _ => []) okFetch "https://api.limen.trade"
    (.bytes [1, 2, 3]) [1, 2, 3] rfl (by decide) (by decide)

/-- C3: if the first wrapped payment fetch fails with a message matching
the missing-associated-token-account regex, the adapter remediates that
mint exactly once; when the remediation succeeds it retries exactly once
and returns the retry's outcome (so a second failure propagates with no
further remediation); and on every call whatsoever at most one remediation
and at most two base fetches occur. -/
theorem adapter_remediates_once (base : Nat → FetchOutcome)
    (remediate : String → Except String Unit) (msg mint : String)
    (hfail : base 0 = .failure msg) (hmint : mintMatch msg = some mint) :
    (adapterFetch base remediate).remediations = [mint] ∧
    (remediate mint = .ok () →
      (adapterFetch base remediate).baseCalls = 2 ∧
      (adapterFetch base remediate).outcome = base 1) ∧
    (∀ b r, (adapterFetch b r).remediations.length ≤ 1 ∧ (adapterFetch b r).baseCalls ≤ 2) := by
  refine ⟨?_, ?_, ?_⟩
  · simp only [adapterFetch, hfail, hmint]
    cases remediate mint <;> rfl
  · intro hok
    simp only [adapterFetch, hfail, hmint, hok]
    simp
  · intro b r
    simp only [adapterFetch]
    rcases hb : b 0 with res | m
    · simp
    · rcases hm : mintMatch m with _ | mint'
      · simp [hm]
      · rcases hr : r mint' with e | u <;> simp [hm, hr]

/-- The base58-alphabet mint string of the C3 witness. -/
def cexMint : String := String.mk (List.replicate 32 'A')

/-- The failing message of the C3 witness. -/
def cexMsg : String := "Associated Token Account for " ++ cexMint ++ " does not exist"

/-- A base transport failing once with `cexMsg`, then succeeding. -/
def cexBase : Nat → FetchOutcome := fun i => if i = 0 then .failure cexMsg else .success okResponse

/-- A remediation that always succeeds. -/
def cexRemediate : String → Except String Unit := fun _ => .ok ()

/-- Witness for C3 at concrete inputs. -/
theorem adapter_remediates_once_witness :
    (adapterFetch cexBase cexRemediate).remediations = [cexMint] ∧
    (cexRemediate cexMint = .ok () →
      (adapterFetch cexBase cexRemediate).baseCalls = 2 ∧
      (adapterFetch cexBase cexRemediate).outcome = cexBase 1) ∧
    (∀ b r, (adapterFetch b r).remediations.length ≤ 1 ∧ (adapterFetch b r).baseCalls ≤ 2) :=
  adapter_remediates_once cexBase cexRemediate cexMsg cexMint rfl (by decide)

/-- The failure behaviour of the exchange for a given response, read off
`exchangeSignatureForToken`: a non-JSON body throws the parse error; a
JSON body with status ≥ 400 or a falsy `token` field throws
`authFailureMessage`; otherwise the exchange does not throw. -/
def exchangeFailMessage (res : ResponseLike) : Option String :=
  match res.jsonBody with
  | none => some ("Failed to parse JSON response: " ++ res.text)
  | some body =>
    if 400 ≤ res.status ∨ jsTruthy (body.getField "token") = false then
      some (authFailureMessage res.status body)
    else none

/-- C7 counterexample: when the exchange response has status 500 and a
body that is not valid JSON, the call fails with the JSON-parse message,
not the status-coded `Auth failed (500)` message the claim requires. -/
theorem exchange_nonjson_message_cex :
    (exchangeSignatureForToken (fun _ _ => ⟨500, none, "oops"⟩) "https://api.limen.trade"
        "w" "sig" none).1 = .error "Failed to parse JSON response: oops" ∧
    ("Failed to parse JSON response: oops" : String) ≠ "Auth failed (500)" :=
  ⟨rfl, by decide⟩

/-- C7 amended: whenever the token-exchange POST to `/api/auth` yields a
response on which the exchange fails — status ≥ 400 or falsy `token`
field for a JSON body, or any non-JSON body — the exchange and both
authentication paths fail with the message given by
`exchangeFailMessage`: the body's truthy `error` field if any, else
`Auth failed (<status>)`, and the parse error for non-JSON bodies. -/
theorem exchange_failure_message (fetchFn : FetchLike) (baseUrl : String)
    (res chRes : ResponseLike) (chBody : Json) (msg : String)
    (hex : ∀ req, fetchFn (baseUrl ++ "/api/auth") req = res)
    (hch : ∀ req, fetchFn (baseUrl ++ "/api/auth/challenge") req = chRes)
    (hchOk : chRes.status < 400) (hchBody : chRes.jsonBody = some chBody)
    (hm : exchangeFailMessage res = some msg) :
    (∀ w sg ct, (exchangeSignatureForToken fetchFn baseUrl w sg ct).1 = .error msg) ∧
    (∀ encodeUtf8 enc wallet,
      (authenticateWithWallet encodeUtf8 enc fetchFn baseUrl wallet).1 = .error msg) ∧
    (∀ fromSeed fromSecretKey enc encodeUtf8 signDetached pk sk,
      (authenticateWithSecretKey fromSeed fromSecretKey enc encodeUtf8 signDetached
        fetchFn baseUrl (.keypair pk sk)).1 = .error msg) := by
  have hexch : ∀ w sg ct,
      (exchangeSignatureForToken fetchFn baseUrl w sg ct).1 = .error msg := by
    intro w sg ct
    simp only [exchangeSignatureForToken, hex]
    rcases hb : res.jsonBody with _ | body
    · simp only [exchangeFailMessage, hb, Option.some.injEq] at hm
      simp [fetchJson, hb, hm]
    · simp only [exchangeFailMessage, hb] at hm
      split at hm
      · simp_all [fetchJson]
      · exact absurd hm (by simp)
  have hchal : (fetchChallenge fetchFn baseUrl).1 =
      .ok ⟨chBody.getField "challenge", chBody.getField "challengeToken"⟩ := by
    have hlt : ¬ 400 ≤ chRes.status := by omega
    simp [fetchChallenge, hch, hlt, fetchJson, hchBody]
  refine ⟨hexch, ?_, ?_⟩
  · intro encodeUtf8 enc wallet
    simp only [authenticateWithWallet, hchal, hexch]
    rfl
  · intro fromSeed fromSecretKey enc encodeUtf8 signDetached pk sk
    simp only [authenticateWithSecretKey, normalizeSecretKey, hchal, hexch]
    rfl

/-- A transport for the C7 witness: a good challenge, then an exchange
response of status 500 whose body carries an `error` field. -/
def authCexFetch : FetchLike := fun url _ =>
  if url = "https://api.limen.trade/api/auth/challenge" then
    ⟨200, some (.obj [("challenge", .str "c"), ("challengeToken", .str "ct")]), ""⟩
  else ⟨500, some (.obj [("error", .str "bad signature")]), ""⟩

/-- The exchange response of the C7 witness. -/
def authCexRes : ResponseLike := ⟨500, some (.obj [("error", .str "bad signature")]), ""⟩

/-- The challenge response of the C7 witness. -/
def authCexChRes : ResponseLike :=
  ⟨200, some (.obj [("challenge", .str "c"), ("challengeToken", .str "ct")]), ""⟩

/-- Witness for the amended C7 at concrete inputs. -/
theorem exchange_failure_message_witness :
    (∀ w sg ct, (exchangeSignatureForToken authCexFetch "https://api.limen.trade" w sg ct).1
      = .error "bad signature") ∧
    (∀ encodeUtf8 enc wallet,
      (authenticateWithWallet encodeUtf8 enc authCexFetch "https://api.limen.trade" wallet).1
        = .error "bad signature") ∧
    (∀ fromSeed fromSecretKey enc encodeUtf8 signDetached pk sk,
      (authenticateWithSecretKey fromSeed fromSecretKey enc encodeUtf8 signDetached
        authCexFetch "https://api.limen.trade" (.keypair pk sk)).1 = .error "bad signature") :=
  exchange_failure_message authCexFetch "https://api.limen.trade" authCexRes authCexChRes
    (.obj [("challenge", .str "c"), ("challengeToken", .str "ct")]) "bad signature"
    (fun _ => rfl) (fun _ => rfl) (by decide) rfl rfl

end LimenSDK
